import Mathlib

/-!
# Verification of the regbus "latest value" register library

Shallow embedding of the regbus C++ headers:

* `DBReg T`   — src/include/regbus/DBReg.hpp, the double-buffered coherent
  register ("CoherentRegister" in the spec);
* `CmdReg T`  — the edge-triggered command register ("EdgeRegister");
* `Registry`  — the compile-time keyed registry.

The embedding gives the sequential (single-thread interleaving-free)
semantics of the operations.  Machine integers of type `uint32_t` are
modelled as `Nat` reduced modulo `2 ^ 32` wherever the C++ arithmetic can
wrap.  The `read` retry loop of `DBReg` terminates on its first iteration
when no writer runs concurrently (`i1 = i2 = idx_` and the slot sequence is
stable), so sequential `read` is the pure function returning the active
slot's value and sequence stamp when `has_` is set, and failure otherwise.
`out`-parameters written only on success are modelled by returning the
(possibly unchanged) `out` value explicitly.
-/

namespace regbus

/-- Modulus of the C++ `uint32_t` type: all `uint32_t` arithmetic in
`DBReg` is reduced modulo this constant. -/
def u32Mod : Nat := 2 ^ 32

/-- `cur ^ 1u` from `DBReg::write` (DBReg.hpp line 24): flip a slot
index between 0 and 1 by xor with 1. -/
def flip1 (i : Fin 2) : Fin 2 :=
  ⟨i.val ^^^ 1, by revert i; decide⟩

/-- State of `regbus::DBReg<T>` (DBReg.hpp lines 54-59): two value slots
`buf_`, per-slot sequence stamps `seq_`, the global sequence counter
`seq_ctr_`, the active slot index `idx_` and the has-value flag `has_`. -/
structure DBReg (T : Type) where
  buf_ : Fin 2 → T
  seq_ : Fin 2 → Nat
  seq_ctr_ : Nat
  idx_ : Fin 2
  has_ : Bool

/-- The `DBReg` constructor (DBReg.hpp lines 16-20): `idx_ = 0`,
`has_ = false`, both slot sequences 0, counter 0, and the buffers
value-initialised (`buf_[2]{}`). -/
def DBReg.init (T : Type) [Inhabited T] : DBReg T :=
  { buf_ := fun _ => default
    seq_ := fun _ => 0
    seq_ctr_ := 0
    idx_ := 0
    has_ := false }

/-- `DBReg::write` (DBReg.hpp lines 22-30): copy `v` into the inactive
slot `nxt = idx_ ^ 1`, stamp it with `s = seq_ctr_ + 1` (the result of
`fetch_add(1) + 1`, wrapping at 2^32), flip `idx_` to `nxt`, set `has_`. -/
def DBReg.write {T : Type} (r : DBReg T) (v : T) : DBReg T :=
  { buf_ := Function.update r.buf_ (flip1 r.idx_) v
    seq_ := Function.update r.seq_ (flip1 r.idx_) ((r.seq_ctr_ + 1) % u32Mod)
    seq_ctr_ := (r.seq_ctr_ + 1) % u32Mod
    idx_ := flip1 r.idx_
    has_ := true }

/-- `DBReg::read` (DBReg.hpp lines 32-50), sequential semantics: fail
(`none`) when `has_` is unset; otherwise the validation loop succeeds on
its first iteration (no concurrent writer, so `i1 = i2 = idx_` and
`seq_[i1]` is unchanged between the two loads) and the call returns the
active slot's value together with its sequence stamp. -/
def DBReg.read {T : Type} (r : DBReg T) : Option (T × Nat) :=
  if r.has_ then some (r.buf_ r.idx_, r.seq_ r.idx_) else none

/-- `DBReg::has` (DBReg.hpp line 52). -/
def DBReg.has {T : Type} (r : DBReg T) : Bool := r.has_

/-- Iterated writes: `DBReg.writeN r vs n` performs the first `n` writes
of the value stream `vs`, the i-th call writing `vs i` (i = 1..n). -/
def DBReg.writeN {T : Type} (r : DBReg T) (vs : Nat → T) : Nat → DBReg T
  | 0 => r
  | n + 1 => DBReg.write (DBReg.writeN r vs n) (vs (n + 1))

/-- The sequence stamp a successful `read` reports, `none` on failure. -/
def DBReg.readSeq {T : Type} (r : DBReg T) : Option Nat :=
  Option.map Prod.snd r.read

/-- State of `regbus::CmdReg<T>` (CmdReg.hpp lines 26-28): stored value
`val_` and the pending flag `ready_`. -/
structure CmdReg (T : Type) where
  val_ : T
  ready_ : Bool
  deriving DecidableEq

/-- The `CmdReg` default state (CmdReg.hpp lines 27-28): value-initialised
`val_{}`, `ready_ = false`. -/
def CmdReg.init (T : Type) [Inhabited T] : CmdReg T :=
  { val_ := default, ready_ := false }

/-- `CmdReg::post` (CmdReg.hpp lines 11-15): store `v`, set `ready_`. -/
def CmdReg.post {T : Type} (r : CmdReg T) (v : T) : CmdReg T :=
  { r with val_ := v, ready_ := true }

/-- `CmdReg::consume` (CmdReg.hpp lines 16-23): when `ready_`, copy
`val_` to `out`, clear `ready_` and return true; otherwise return false
leaving `out` and the register untouched.  The returned triple is
(result, `out` after the call, register after the call). -/
def CmdReg.consume {T : Type} (r : CmdReg T) (out : T) : Bool × T × CmdReg T :=
  if r.ready_ then (true, r.val_, { r with ready_ := false }) else (false, out, r)

/-- `CmdReg::pending` (CmdReg.hpp line 24). -/
def CmdReg.pending {T : Type} (r : CmdReg T) : Bool := r.ready_

/-! ## Basic lemmas about `DBReg` -/

theorem flip1_ne {i : Fin 2} : flip1 i ≠ i := by
  revert i; decide

/-- A write is immediately readable: the new active slot holds the
written value stamped `seq_ctr_ + 1 mod 2^32`. -/
theorem read_write {T : Type} (r : DBReg T) (v : T) :
    (r.write v).read = some (v, (r.seq_ctr_ + 1) % u32Mod) := by
  simp [DBReg.read, DBReg.write]

theorem writeN_seq_ctr {T : Type} [Inhabited T] (vs : Nat → T) :
    ∀ n : Nat, (DBReg.writeN (DBReg.init T) vs n).seq_ctr_ = n % u32Mod := by
  intro n
  induction n with
  | zero => simp [DBReg.writeN, DBReg.init]
  | succ m ih =>
      simp only [DBReg.writeN, DBReg.write, ih, u32Mod]
      omega

theorem writeN_has {T : Type} [Inhabited T] (vs : Nat → T) (n : Nat) :
    (DBReg.writeN (DBReg.init T) vs n).has_ = decide (1 ≤ n) := by
  cases n with
  | zero => simp [DBReg.writeN, DBReg.init]
  | succ m => simp [DBReg.writeN, DBReg.write]

/-- After `n ≥ 1` writes from a fresh register, `read` returns the last
written value stamped `n mod 2^32`. -/
theorem writeN_read {T : Type} [Inhabited T] (vs : Nat → T) (n : Nat)
    (h : 1 ≤ n) :
    (DBReg.writeN (DBReg.init T) vs n).read = some (vs n, n % u32Mod) := by
  cases n with
  | zero => omega
  | succ m =>
      have hc := writeN_seq_ctr (T := T) vs m
      simp only [DBReg.writeN, read_write, hc, u32Mod]
      congr 2
      omega

/-! ## The keyed registry (Registry.hpp)

The C++ `Registry<Key, Traits, Keys...>` is a template over a key type, a
trait mapping `Key -> (payload type, kind)` and a key list; it holds one
register per key (`std::tuple<storage_t<Keys>...>`, Registry.hpp line 111)
whose type is `CmdReg<T>` when the key's kind is `Cmd` and `DBReg<T>`
otherwise (`detail::storage_for`, lines 58-64), and each keyed operation
forwards to that key's own instance (lines 79-93).  We model the trait
mapping as a structure of functions on the key type and the tuple as a
dependent function from keys to each key's storage type.  The
`enable_if_t<kind<K> == Kind::Data>` (resp. `Cmd`) guards become explicit
kind-equality hypotheses. -/

/-- `regbus::Kind` (Registry.hpp lines 14-18). -/
inductive Kind where
  | Data : Kind
  | Cmd : Kind
  deriving DecidableEq

/-- The user-supplied `Traits` template: for each key, its payload type
and register kind (`Traits<K>::type`, `Traits<K>::kind`), together with a
default value of each payload type (C++ payload types are trivially
copyable and value-initialisable). -/
structure KeyTraits (Key : Type) where
  type : Key → Type
  kind : Key → Kind
  inh : ∀ k, Inhabited (type k)

/-- `detail::storage_for` (Registry.hpp lines 58-64):
`std::conditional_t<kind == Kind::Cmd, CmdReg<T>, DBReg<T>>`. -/
def storage_t {Key : Type} (tr : KeyTraits Key) (k : Key) : Type :=
  match tr.kind k with
  | Kind.Cmd => CmdReg (tr.type k)
  | Kind.Data => DBReg (tr.type k)

theorem storage_t_data {Key : Type} (tr : KeyTraits Key) (k : Key)
    (hk : tr.kind k = Kind.Data) : storage_t tr k = DBReg (tr.type k) := by
  unfold storage_t
  rw [hk]

theorem storage_t_cmd {Key : Type} (tr : KeyTraits Key) (k : Key)
    (hk : tr.kind k = Kind.Cmd) : storage_t tr k = CmdReg (tr.type k) := by
  unfold storage_t
  rw [hk]

/-- `regbus::Registry` (Registry.hpp lines 69-112): one register per key,
of the kind-selected storage type. -/
structure Registry (Key : Type) (tr : KeyTraits Key) where
  storage_ : (k : Key) → storage_t tr k

/-- Default construction of a single key's register (each tuple member is
default-constructed with the registry, Registry.hpp line 111). -/
def storageInit {Key : Type} (tr : KeyTraits Key) (k : Key) : storage_t tr k :=
  haveI : Inhabited (tr.type k) := tr.inh k
  match h : tr.kind k with
  | Kind.Cmd =>
      cast (storage_t_cmd tr k h).symm (CmdReg.init (tr.type k))
  | Kind.Data =>
      cast (storage_t_data tr k h).symm (DBReg.init (tr.type k))

/-- Default construction of the registry. -/
def Registry.init (Key : Type) (tr : KeyTraits Key) : Registry Key tr :=
  ⟨fun k => storageInit tr k⟩

/-- `Registry::write<K>` (Registry.hpp lines 79-80): requires `K` to be a
Data-kind key (the `enable_if` guard) and forwards to `get<K>().write(v)`,
replacing key `K`'s register and no other. -/
def Registry.write {Key : Type} [DecidableEq Key] {tr : KeyTraits Key}
    (r : Registry Key tr) (k : Key) (hk : tr.kind k = Kind.Data)
    (v : tr.type k) : Registry Key tr :=
  ⟨Function.update r.storage_ k
    (cast (storage_t_data tr k hk).symm
      (DBReg.write (cast (storage_t_data tr k hk) (r.storage_ k)) v))⟩

/-- `Registry::read<K>` (Registry.hpp lines 82-83): forwards to
`cget<K>().read(out, seq)` on the Data-kind key `K`'s register. -/
def Registry.read {Key : Type} {tr : KeyTraits Key}
    (r : Registry Key tr) (k : Key) (hk : tr.kind k = Kind.Data) :
    Option (tr.type k × Nat) :=
  DBReg.read (cast (storage_t_data tr k hk) (r.storage_ k))

/-- `Registry::has<K>` (Registry.hpp lines 85-86). -/
def Registry.has {Key : Type} {tr : KeyTraits Key}
    (r : Registry Key tr) (k : Key) (hk : tr.kind k = Kind.Data) : Bool :=
  DBReg.has (cast (storage_t_data tr k hk) (r.storage_ k))

/-- `Registry::post<K>` (Registry.hpp lines 89-90): requires `K` to be a
Cmd-kind key and forwards to `get<K>().post(v)`. -/
def Registry.post {Key : Type} [DecidableEq Key] {tr : KeyTraits Key}
    (r : Registry Key tr) (k : Key) (hk : tr.kind k = Kind.Cmd)
    (v : tr.type k) : Registry Key tr :=
  ⟨Function.update r.storage_ k
    (cast (storage_t_cmd tr k hk).symm
      (CmdReg.post (cast (storage_t_cmd tr k hk) (r.storage_ k)) v))⟩

/-- `Registry::consume<K>` (Registry.hpp lines 92-93): forwards to
`get<K>().consume(out)` on the Cmd-kind key `K`'s register; returns
(result, `out` after the call, registry after the call). -/
def Registry.consume {Key : Type} [DecidableEq Key] {tr : KeyTraits Key}
    (r : Registry Key tr) (k : Key) (hk : tr.kind k = Kind.Cmd)
    (out : tr.type k) : Bool × tr.type k × Registry Key tr :=
  let res := CmdReg.consume (cast (storage_t_cmd tr k hk) (r.storage_ k)) out
  (res.1, res.2.1,
    ⟨Function.update r.storage_ k (cast (storage_t_cmd tr k hk).symm res.2.2)⟩)

/-! ## Claim theorems -/

/-- C1: for every value v of the payload type T, calling `write(v)` on a
`DBReg<T>` and then `read(out)` with no interleaved write returns true and
stores into `out` a value bit-equal to v, and `has()` returns true
afterwards. -/
theorem DBReg_round_trip {T : Type} (r : DBReg T) (v : T) :
    (∃ s, (r.write v).read = some (v, s)) ∧ (r.write v).has = true :=
  ⟨⟨(r.seq_ctr_ + 1) % u32Mod, read_write r v⟩, rfl⟩

/-- C2: after `post(v)` on a `CmdReg<T>`, the first `consume(out)` returns
true with `out = v` and clears pending; a second consume with no
intervening post returns false and leaves its `out` argument unchanged;
and whenever `consume` returns false (i.e. `ready_` is unset) it leaves
`out` (and the register) unchanged. -/
theorem CmdReg_one_shot {T : Type} (r s : CmdReg T) (v out out2 o : T)
    (hs : s.ready_ = false) :
    (CmdReg.consume (r.post v) out).1 = true ∧
    (CmdReg.consume (r.post v) out).2.1 = v ∧
    ((CmdReg.consume (r.post v) out).2.2).ready_ = false ∧
    (CmdReg.consume ((CmdReg.consume (r.post v) out).2.2) out2).1 = false ∧
    (CmdReg.consume ((CmdReg.consume (r.post v) out).2.2) out2).2.1 = out2 ∧
    CmdReg.consume s o = (false, o, s) := by
  refine ⟨rfl, rfl, rfl, rfl, rfl, ?_⟩
  simp [CmdReg.consume, hs]

/-- Witness for C2 at a concrete register. -/
theorem CmdReg_one_shot_witness :
    (CmdReg.init Nat).ready_ = false ∧
    (CmdReg.consume ((CmdReg.init Nat).post 5) 0).2.1 = 5 ∧
    CmdReg.consume (CmdReg.init Nat) 7 = (false, 7, CmdReg.init Nat) :=
  ⟨rfl,
   (CmdReg_one_shot (CmdReg.init Nat) (CmdReg.init Nat) 5 0 1 7 rfl).2.1,
   (CmdReg_one_shot (CmdReg.init Nat) (CmdReg.init Nat) 5 0 1 7 rfl).2.2.2.2.2⟩

/-- C3: on a freshly constructed register, `DBReg::read` returns false and
`CmdReg::consume` returns false; `DBReg::read` fails iff no write has ever
occurred, and `has()` is true iff at least one write has occurred. -/
theorem fresh_register_empty {T : Type} [Inhabited T] (vs : Nat → T)
    (n : Nat) (out : T) :
    (DBReg.init T).read = none ∧
    (CmdReg.consume (CmdReg.init T) out).1 = false ∧
    ((DBReg.writeN (DBReg.init T) vs n).read = none ↔ n = 0) ∧
    ((DBReg.writeN (DBReg.init T) vs n).has = true ↔ 1 ≤ n) := by
  refine ⟨rfl, rfl, ?_, ?_⟩
  · cases n with
    | zero => simp [DBReg.writeN, DBReg.init, DBReg.read]
    | succ m =>
        rw [writeN_read vs (m + 1) (Nat.succ_le_succ (Nat.zero_le m))]
        simp
  · rw [DBReg.has, writeN_has]
    simp

/-- C4: `write(v)` copies v into the slot that was inactive, stamps that
slot with the next (incremented, mod 2^32) global sequence number, flips
`idx_` to that slot and sets `has_`; the previously active slot's contents
and sequence stamp are unchanged.  (`write` is a total function: it always
succeeds, with no failure condition.) -/
theorem DBReg_write_semantics {T : Type} (r : DBReg T) (v : T) :
    (r.write v).idx_ = flip1 r.idx_ ∧
    (r.write v).buf_ ((r.write v).idx_) = v ∧
    (r.write v).seq_ ((r.write v).idx_) = (r.seq_ctr_ + 1) % u32Mod ∧
    (r.write v).seq_ctr_ = (r.seq_ctr_ + 1) % u32Mod ∧
    (r.write v).has_ = true ∧
    (r.write v).buf_ r.idx_ = r.buf_ r.idx_ ∧
    (r.write v).seq_ r.idx_ = r.seq_ r.idx_ := by
  refine ⟨rfl, ?_, ?_, rfl, rfl, ?_, ?_⟩ <;>
    simp [DBReg.write, Function.update_noteq (Ne.symm (flip1_ne (i := r.idx_)))]

/-- C7: `post(v1)` then `post(v2)` with no intervening consume leaves the
register pending with stored value v2; the next consume yields v2 (so v1
is never observable: the stored value after the two posts is v2). -/
theorem CmdReg_overwrite {T : Type} (r : CmdReg T) (v1 v2 out : T) :
    ((r.post v1).post v2).ready_ = true ∧
    ((r.post v1).post v2).val_ = v2 ∧
    (CmdReg.consume ((r.post v1).post v2) out).1 = true ∧
    (CmdReg.consume ((r.post v1).post v2) out).2.1 = v2 ∧
    ((CmdReg.consume ((r.post v1).post v2) out).2.2).ready_ = false :=
  ⟨rfl, rfl, rfl, rfl, rfl⟩

/-- The per-write sequence stamp of the active slot after `n ≥ 1` writes
from a fresh register is `n mod 2^32`. -/
theorem writeN_seq_at_idx {T : Type} [Inhabited T] (vs : Nat → T) (n : Nat)
    (h : 1 ≤ n) :
    (DBReg.writeN (DBReg.init T) vs n).seq_
        ((DBReg.writeN (DBReg.init T) vs n).idx_) = n % u32Mod := by
  cases n with
  | zero => omega
  | succ m =>
      have hc := writeN_seq_ctr (T := T) vs m
      simp only [DBReg.writeN, DBReg.write, Function.update_same, hc, u32Mod]
      omega

/-- The read-back sequence after `n ≥ 1` writes from a fresh register is
`n mod 2^32`. -/
theorem writeN_readSeq {T : Type} [Inhabited T] (vs : Nat → T) (n : Nat)
    (h : 1 ≤ n) :
    (DBReg.writeN (DBReg.init T) vs n).readSeq = some (n % u32Mod) := by
  rw [DBReg.readSeq, writeN_read vs n h]
  rfl

/-- C6 counterexample: the 32-bit sequence counter wraps, so it is not
monotonically increasing across writes, and a read issued after more
writes can return a strictly smaller sequence number.  After `2^32 - 1`
writes a read returns sequence `2^32 - 1`; after the `2^32`-th write (a
later point of the same sequential execution) a read returns sequence 0,
and the counter itself drops from `2^32 - 1` to 0. -/
theorem DBReg_seq_wraps :
    (DBReg.writeN (DBReg.init Unit) (fun _ => ()) (u32Mod - 1)).readSeq
        = some (u32Mod - 1) ∧
    (DBReg.writeN (DBReg.init Unit) (fun _ => ()) u32Mod).readSeq = some 0 ∧
    (DBReg.writeN (DBReg.init Unit) (fun _ => ()) (u32Mod - 1)).seq_ctr_
        = u32Mod - 1 ∧
    (DBReg.writeN (DBReg.init Unit) (fun _ => ()) u32Mod).seq_ctr_ = 0 ∧
    0 < u32Mod - 1 := by
  have h1 : 1 ≤ u32Mod - 1 := by norm_num [u32Mod]
  have he1 : (u32Mod - 1) % u32Mod = u32Mod - 1 := by
    simp only [u32Mod]; omega
  have heM : u32Mod % u32Mod = 0 := Nat.mod_self u32Mod
  refine ⟨?_, ?_, ?_, ?_, by norm_num [u32Mod]⟩
  · rw [writeN_readSeq (fun _ => ()) (u32Mod - 1) h1, he1]
  · rw [writeN_readSeq (fun _ => ()) u32Mod (by norm_num [u32Mod]), heM]
  · rw [writeN_seq_ctr (fun _ => ()) (u32Mod - 1), he1]
  · rw [writeN_seq_ctr (fun _ => ()) u32Mod, heM]

/-- C6 amended: as long as the total number of writes stays below 2^32
(no counter wrap), the global sequence counter is monotonically
increasing across writes — strictly so when at least one write
intervenes — and the sequence number returned by successive successful
reads of the same register never decreases (back-to-back reads with no
intervening write return equal sequence numbers). -/
theorem DBReg_monotonic_below_wrap {T : Type} [Inhabited T] (vs : Nat → T)
    (m n : Nat) (h1 : 1 ≤ m) (hmn : m ≤ n) (hn : n < u32Mod) :
    (DBReg.writeN (DBReg.init T) vs m).readSeq = some m ∧
    (DBReg.writeN (DBReg.init T) vs n).readSeq = some n ∧
    (DBReg.writeN (DBReg.init T) vs m).seq_ctr_
        ≤ (DBReg.writeN (DBReg.init T) vs n).seq_ctr_ ∧
    (m < n →
      (DBReg.writeN (DBReg.init T) vs m).seq_ctr_
        < (DBReg.writeN (DBReg.init T) vs n).seq_ctr_) := by
  have hm : m % u32Mod = m := Nat.mod_eq_of_lt (lt_of_le_of_lt hmn hn)
  have hn' : n % u32Mod = n := Nat.mod_eq_of_lt hn
  refine ⟨?_, ?_, ?_, ?_⟩
  · rw [writeN_readSeq vs m h1, hm]
  · rw [writeN_readSeq vs n (le_trans h1 hmn), hn']
  · rw [writeN_seq_ctr vs m, writeN_seq_ctr vs n, hm, hn']
    exact hmn
  · intro hlt
    rw [writeN_seq_ctr vs m, writeN_seq_ctr vs n, hm, hn']
    exact hlt

/-- Witness for the amended C6 at m = 1, n = 2 writes. -/
theorem DBReg_monotonic_below_wrap_witness :
    (1 ≤ 1 ∧ 1 ≤ 2 ∧ 2 < u32Mod) ∧
    (DBReg.writeN (DBReg.init Unit) (fun _ => ()) 1).readSeq = some 1 ∧
    (DBReg.writeN (DBReg.init Unit) (fun _ => ()) 2).readSeq = some 2 ∧
    (DBReg.writeN (DBReg.init Unit) (fun _ => ()) 1).seq_ctr_
        < (DBReg.writeN (DBReg.init Unit) (fun _ => ()) 2).seq_ctr_ :=
  ⟨⟨le_refl 1, by norm_num, by norm_num [u32Mod]⟩,
   (DBReg_monotonic_below_wrap (fun _ => ()) 1 2 (le_refl 1) (by norm_num)
      (by norm_num [u32Mod])).1,
   (DBReg_monotonic_below_wrap (fun _ => ()) 1 2 (le_refl 1) (by norm_num)
      (by norm_num [u32Mod])).2.1,
   (DBReg_monotonic_below_wrap (fun _ => ()) 1 2 (le_refl 1) (by norm_num)
      (by norm_num [u32Mod])).2.2.2 (by norm_num)⟩

/-- C10: the sequence counter starts at 0; the n-th write stamps
`n mod 2^32` into the slot it fills, so a successful read after exactly
n writes returns sequence `n mod 2^32` — strictly positive while
`1 ≤ n < 2^32` — and the counter silently wraps to 0 on the `2^32`-th
write. -/
theorem DBReg_seq_numbering {T : Type} [Inhabited T] (vs : Nat → T)
    (n : Nat) (h1 : 1 ≤ n) :
    (DBReg.init T).seq_ctr_ = 0 ∧
    (DBReg.writeN (DBReg.init T) vs n).seq_
        ((DBReg.writeN (DBReg.init T) vs n).idx_) = n % u32Mod ∧
    (DBReg.writeN (DBReg.init T) vs n).read = some (vs n, n % u32Mod) ∧
    (n < u32Mod → 0 < n % u32Mod) ∧
    (DBReg.writeN (DBReg.init T) vs u32Mod).readSeq = some 0 := by
  refine ⟨rfl, writeN_seq_at_idx vs n h1, writeN_read vs n h1, ?_, ?_⟩
  · intro hlt
    rw [Nat.mod_eq_of_lt hlt]
    exact h1
  · rw [writeN_readSeq vs u32Mod (by norm_num [u32Mod]), Nat.mod_self]

/-- Witness for C10 at n = 3 writes of the values 1, 2, 3. -/
theorem DBReg_seq_numbering_witness :
    (1 ≤ 3) ∧
    (DBReg.writeN (DBReg.init Nat) (fun i => i) 3).read = some (3, 3 % u32Mod) :=
  ⟨by norm_num, (DBReg_seq_numbering (fun i => i) 3 (by norm_num)).2.2.1⟩

/-- C8: for distinct keys k1 ≠ k2 of a registry, `write`/`post`/`consume`
on k1 leave k2's register — and the results of subsequent `read`, `has`
and `consume` on k2 — completely unchanged, and each operation on k1
forwards exactly to k1's own register instance. -/
theorem Registry_key_isolation {Key : Type} [DecidableEq Key]
    {tr : KeyTraits Key} (r : Registry Key tr) (k1 k2 : Key)
    (hne : k1 ≠ k2) :
    (∀ (hd : tr.kind k1 = Kind.Data) (v : tr.type k1),
        (r.write k1 hd v).storage_ k2 = r.storage_ k2 ∧
        (r.write k1 hd v).storage_ k1
          = cast (storage_t_data tr k1 hd).symm
              (DBReg.write (cast (storage_t_data tr k1 hd) (r.storage_ k1)) v)) ∧
    (∀ (hc : tr.kind k1 = Kind.Cmd) (v : tr.type k1),
        (r.post k1 hc v).storage_ k2 = r.storage_ k2 ∧
        (r.post k1 hc v).storage_ k1
          = cast (storage_t_cmd tr k1 hc).symm
              (CmdReg.post (cast (storage_t_cmd tr k1 hc) (r.storage_ k1)) v)) ∧
    (∀ (hc : tr.kind k1 = Kind.Cmd) (out : tr.type k1),
        ((r.consume k1 hc out).2.2).storage_ k2 = r.storage_ k2) ∧
    (∀ (hd : tr.kind k1 = Kind.Data) (v : tr.type k1)
        (h2 : tr.kind k2 = Kind.Data),
        (r.write k1 hd v).read k2 h2 = r.read k2 h2 ∧
        (r.write k1 hd v).has k2 h2 = r.has k2 h2) ∧
    (∀ (hc : tr.kind k1 = Kind.Cmd) (v : tr.type k1)
        (h2 : tr.kind k2 = Kind.Cmd) (out : tr.type k2),
        ((r.post k1 hc v).consume k2 h2 out).1 = (r.consume k2 h2 out).1 ∧
        ((r.post k1 hc v).consume k2 h2 out).2.1 = (r.consume k2 h2 out).2.1) := by
  have hne' : k2 ≠ k1 := Ne.symm hne
  refine ⟨?_, ?_, ?_, ?_, ?_⟩
  · intro hd v
    exact ⟨Function.update_noteq hne' _ _, Function.update_same _ _ _⟩
  · intro hc v
    exact ⟨Function.update_noteq hne' _ _, Function.update_same _ _ _⟩
  · intro hc out
    exact Function.update_noteq hne' _ _
  · intro hd v h2
    have hfr : (r.write k1 hd v).storage_ k2 = r.storage_ k2 :=
      Function.update_noteq hne' _ _
    constructor
    · rw [Registry.read, Registry.read, hfr]
    · rw [Registry.has, Registry.has, hfr]
  · intro hc v h2 out
    have hfr : (r.post k1 hc v).storage_ k2 = r.storage_ k2 :=
      Function.update_noteq hne' _ _
    constructor
    · rw [Registry.consume, Registry.consume, hfr]
    · rw [Registry.consume, Registry.consume, hfr]

/-- A concrete two-key trait mapping for exercising the registry:
key `true` is a Data key with payload `Nat`, key `false` a Cmd key with
payload `Bool`. -/
def twoKeyTraits : KeyTraits Bool :=
  { type := fun b => match b with
      | true => Nat
      | false => Bool
    kind := fun b => match b with
      | true => Kind.Data
      | false => Kind.Cmd
    inh := fun b => match b with
      | true => (inferInstance : Inhabited Nat)
      | false => (inferInstance : Inhabited Bool) }

/-- Witness for C8: on the concrete two-key registry, a write to the Data
key `true` leaves the Cmd key `false`'s register untouched, and a post to
the Cmd key `false` leaves the Data key `true`'s register — and what
`read` returns for it — untouched. -/
theorem Registry_key_isolation_witness :
    (true ≠ false) ∧
    ((Registry.init Bool twoKeyTraits).write true rfl (7 : Nat)).storage_ false
      = (Registry.init Bool twoKeyTraits).storage_ false ∧
    ((Registry.init Bool twoKeyTraits).post false rfl true).storage_ true
      = (Registry.init Bool twoKeyTraits).storage_ true ∧
    (((Registry.init Bool twoKeyTraits).consume false rfl false).2.2).storage_
        true
      = (Registry.init Bool twoKeyTraits).storage_ true :=
  ⟨by decide,
   ((Registry_key_isolation (Registry.init Bool twoKeyTraits) true false
      (by decide)).1 rfl (7 : Nat)).1,
   ((Registry_key_isolation (Registry.init Bool twoKeyTraits) false true
      (by decide)).2.1 rfl true).1,
   (Registry_key_isolation (Registry.init Bool twoKeyTraits) false true
      (by decide)).2.2.1 rfl false⟩

end regbus
